import Mathlib

/-!
# SEAM authentication page: the capture-detect-decide flow

A shallow embedding of `handleAuthenticate` and of the parts of the JSX that
depend on the React state, from `src/pages/AuthenticationPage.jsx`.

The collaborators (the face-detection library, the webcam, the image decoder)
are parameters of an attempt, collected in `Env`: each one either returns a
value or throws.  The React state, the pending timers, the router history
and a log of collaborator calls are the fields of `World`.  `Page` adds what
changes between the `await`s of the handler: the last committed render and
the suspended runs.
-/

namespace AuthenticationPage

/-! ## Data model -/

/-- A thrown JavaScript value, as the `catch` block sees it: either an
`Error` instance with its `message`, or any other value. -/
inductive Thrown where
  | error (message : String)
  | nonError
  deriving DecidableEq, Repr

/-- One detected face region (bounding box), as returned by `estimateFaces`. -/
structure Face where
  xMin : Nat
  yMin : Nat
  width : Nat
  height : Nat
  deriving DecidableEq, Repr

/-- The `Image` element built at lines 26-27: only its `src` is set. -/
structure Image where
  src : String
  deriving DecidableEq, Repr

/-- The detector object that `faceDetection.createDetector` resolves to. -/
structure Detector where
  estimateFaces : Image → Except Thrown (List Face)

/-- The webcam component behind `webcamRef.current`: `getScreenshot()` returns
a data URL or `null`, or throws. -/
structure Webcam where
  getScreenshot : Except Thrown (Option String)

/-- The behaviour of the collaborators during one attempt. -/
structure Env where
  /-- The call `faceDetection.createDetector(SupportedModels.MediaPipeFaceDetector)` -/
  createDetector : Except Thrown Detector
  /-- The value of `webcamRef.current`, `none` when the ref is unset -/
  webcamRef : Option Webcam
  /-- The call `img.decode()` -/
  decode : Image → Except Thrown Unit

/-- The collaborator calls that `handleAuthenticate` can make. -/
inductive Call where
  | createDetector
  | getScreenshot
  | decode (img : Image)
  | estimateFaces (img : Image)
  deriving DecidableEq, Repr

/-- The callbacks handed to `setTimeout`; the page has one, the arrow
function of lines 41-44. -/
inductive Callback where
  | authSuccess
  deriving DecidableEq, Repr

/-- A pending `setTimeout(callback, delay)`. -/
structure Timer where
  callback : Callback
  delay : Nat
  deriving DecidableEq, Repr

/-- The React state of the page (`isLoading`, `error`) together with the
pending timers, the paths passed to `navigate`, and the log of collaborator
calls, oldest first. -/
structure World where
  isLoading : Bool
  error : Option String
  timers : List Timer
  navigations : List String
  calls : List Call
  deriving DecidableEq, Repr

/-- The state after `useState(false)` and `useState(null)`, before any
attempt. -/
def initial : World :=
  { isLoading := false, error := none, timers := [], navigations := [], calls := [] }

/-! ## Effects -/

def setIsLoading (b : Bool) (w : World) : World := { w with isLoading := b }

def setError (e : Option String) (w : World) : World := { w with error := e }

def navigate (path : String) (w : World) : World :=
  { w with navigations := w.navigations ++ [path] }

def setTimeout (cb : Callback) (delay : Nat) (w : World) : World :=
  { w with timers := w.timers ++ [{ callback := cb, delay := delay }] }

def record (c : Call) (w : World) : World := { w with calls := w.calls ++ [c] }

/-! ## handleAuthenticate -/

/-- The expression `webcamRef.current?.getScreenshot()` of line 23: with the
ref unset nothing is called and the value is `undefined`. -/
def getImageSrc (env : Env) (w : World) : World × Except Thrown (Option String) :=
  match env.webcamRef with
  | none => (w, .ok none)
  | some cam => (record .getScreenshot w, cam.getScreenshot)

/-- The face-count checks and the scheduling of the success action,
lines 32-44. -/
def faceCountGate (faces : List Face) (w : World) : World × Option Thrown :=
  if faces.length = 0 then
    (w, some (.error "No face detected. Please ensure you are clearly visible in the camera."))
  else if faces.length > 1 then
    (w, some (.error "Multiple faces detected. Please ensure only one person is in frame."))
  else
    (setTimeout .authSuccess 1500 w, none)

/-- The `try` block, lines 16-44: the world it leaves and the value it threw,
if any. -/
def tryBlock (env : Env) (w : World) : World × Option Thrown :=
  let w := setIsLoading true w
  let w := setError none w
  let w := record .createDetector w
  match env.createDetector with
  | .error e => (w, some e)
  | .ok model =>
    match getImageSrc env w with
    | (w, .error e) => (w, some e)
    | (w, .ok none) => (w, some (.error "Failed to capture image"))
    | (w, .ok (some imageSrc)) =>
      if imageSrc = "" then (w, some (.error "Failed to capture image"))
      else
        let img : Image := { src := imageSrc }
        let w := record (.decode img) w
        match env.decode img with
        | .error e => (w, some e)
        | .ok _ =>
          let w := record (.estimateFaces img) w
          match model.estimateFaces img with
          | .error e => (w, some e)
          | .ok faces => faceCountGate faces w

/-- The message of line 47: `err.message` when `err instanceof Error`, else
the fixed text `Authentication failed`. -/
def errorMessage : Thrown → String
  | .error message => message
  | .nonError => "Authentication failed"

/-- The `catch` block, lines 46-49. -/
def catchBlock (err : Thrown) (w : World) : World :=
  setIsLoading false (setError (some (errorMessage err)) w)

/-- The handler of lines 14-50, run to the end of its `async` body. -/
def handleAuthenticate (env : Env) (w : World) : World :=
  match tryBlock env w with
  | (w, none) => w
  | (w, some err) => catchBlock err w

/-- Runs one callback: for `authSuccess`, lines 42-43. -/
def runCallback : Callback → World → World
  | .authSuccess, w => navigate "/profile/1" (setIsLoading false w)

/-- Fires the oldest pending timer, if there is one. -/
def fireTimer (w : World) : World :=
  match w.timers with
  | [] => w
  | t :: rest => runCallback t.callback { w with timers := rest }

/-- Fires every pending timer, oldest first. -/
def fireAll (w : World) : World :=
  w.timers.foldl (fun acc t => runCallback t.callback acc) { w with timers := [] }

/-! ## The page -/

/-- What the JSX of lines 52-128 shows, as far as it depends on the state. -/
structure View where
  /-- Whether the spinner shows: `isLoading && <LoadingSpinner />`, lines 78-82 -/
  spinner : Bool
  /-- The text of the error box, if shown: `error && <p>error</p>`, lines 98-105 -/
  errorBox : Option String
  /-- The attribute `disabled=isLoading`, line 110 -/
  buttonDisabled : Bool
  /-- The label of line 117 -/
  buttonLabel : String
  deriving DecidableEq, Repr

/-- JavaScript truthiness of the `error` state: `null` and the empty string
are falsy. -/
def truthy : Option String → Bool
  | none => false
  | some s => s != ""

def render (w : World) : View :=
  { spinner := w.isLoading
    errorBox := if truthy w.error then w.error else none
    buttonDisabled := w.isLoading
    buttonLabel := if w.isLoading then "Authenticating..." else "Authenticate" }

/-- Sequential attempts: `handleAuthenticate` is run once per element of
`envs`, each time after the previous run has ended and its timers have
fired. -/
def runAttempts (envs : List Env) (w : World) : World :=
  envs.foldl (fun acc env => fireAll (handleAuthenticate env acc)) w

/-- How many times `faceDetection.createDetector` was called. -/
def createCount (w : World) : Nat := w.calls.count .createDetector

/-- How many times `getScreenshot` was called. -/
def captureCount (w : World) : Nat := w.calls.count .getScreenshot

/-- How many times `estimateFaces` was called, on any image. -/
def detectCount (w : World) : Nat :=
  w.calls.countP (fun c => match c with | .estimateFaces _ => true | _ => false)

/-- The capture source yields no image: the webcam ref is unset, or
`getScreenshot()` returns `null` or the empty string. -/
def noImage (env : Env) : Bool :=
  match env.webcamRef with
  | none => true
  | some cam =>
    match cam.getScreenshot with
    | .ok none => true
    | .ok (some s) => s == ""
    | .error _ => false

/-! ## Sample collaborators -/

def oneFace : Face := { xMin := 10, yMin := 20, width := 100, height := 120 }

def detectorOf (faces : List Face) : Detector := { estimateFaces := fun _ => .ok faces }

def camOf (shot : Option String) : Webcam := { getScreenshot := .ok shot }

/-- Creation, capture and decoding succeed and detection returns `faces`. -/
def envOf (faces : List Face) : Env :=
  { createDetector := .ok (detectorOf faces)
    webcamRef := some (camOf (some "data:image/jpeg;base64,AAAA"))
    decode := fun _ => .ok () }

/-- Detector creation succeeds, the webcam returns `null`. -/
def envNoShot : Env :=
  { createDetector := .ok (detectorOf [oneFace])
    webcamRef := some (camOf none)
    decode := fun _ => .ok () }

/-- Detector creation throws `err`; the webcam ref is unset. -/
def envCreateFault (err : Thrown) : Env :=
  { createDetector := .error err
    webcamRef := none
    decode := fun _ => .ok () }

/-! ## The page over time

`handleAuthenticate` is an `async` function: it runs from one `await` to the
next, and other events of the page (clicks, React committing a render, a
timer firing) happen in between.  The setters change the state at once, but
the `disabled` attribute that a click meets is the one of the last committed
render. -/

/-- Where a run of `handleAuthenticate` is suspended: at the `await` of line
19, of line 28 or of line 30. -/
inductive Pending where
  | awaitCreate
  | awaitDecode (model : Detector) (img : Image)
  | awaitEstimate (model : Detector) (img : Image)

/-- The synchronous start of the handler, lines 16-19, up to the first
`await`. -/
def start (w : World) : World :=
  record .createDetector (setError none (setIsLoading true w))

/-- The handler from one `await` to the next, or to its end: the world it
leaves and where it is suspended next, if it is. A throw runs the `catch`
block and ends the run. -/
def resume (env : Env) : Pending → World → World × Option Pending
  | .awaitCreate, w =>
    match env.createDetector with
    | .error e => (catchBlock e w, none)
    | .ok model =>
      match getImageSrc env w with
      | (w, .error e) => (catchBlock e w, none)
      | (w, .ok none) => (catchBlock (.error "Failed to capture image") w, none)
      | (w, .ok (some imageSrc)) =>
        if imageSrc = "" then (catchBlock (.error "Failed to capture image") w, none)
        else
          (record (.decode { src := imageSrc }) w,
            some (.awaitDecode model { src := imageSrc }))
  | .awaitDecode model img, w =>
    match env.decode img with
    | .error e => (catchBlock e w, none)
    | .ok _ => (record (.estimateFaces img) w, some (.awaitEstimate model img))
  | .awaitEstimate model img, w =>
    match model.estimateFaces img with
    | .error e => (catchBlock e w, none)
    | .ok faces =>
      match faceCountGate faces w with
      | (w, none) => (w, none)
      | (w, some err) => (catchBlock err w, none)

/-- A started handler resumed until it ends, with nothing in between. -/
def finish (env : Env) (w : World) : World :=
  match resume env .awaitCreate w with
  | (w, none) => w
  | (w, some k) =>
    match resume env k w with
    | (w, none) => w
    | (w, some k) => (resume env k w).1

/-- A suspended run of `handleAuthenticate` with the collaborators it meets. -/
structure Run where
  env : Env
  point : Pending

/-- The page at one moment: the state and effects so far, the last render
that React committed, and the suspended runs of the handler, oldest first. -/
structure Page where
  world : World
  dom : View
  runs : List Run

/-- What can happen on the page. -/
inductive Event where
  /-- A click on the Authenticate button; `env` is what the collaborators will
  do in the run it starts, if it starts one -/
  | click (env : Env)
  /-- The awaited promise of run `i` settles and the run goes on -/
  | resume (i : Nat)
  /-- React commits the render of the current state -/
  | commit
  /-- The oldest pending timer fires -/
  | timeout

/-- One event. A click reads the `disabled` attribute of the committed render
(line 110): a disabled button dispatches no `onClick`, any other click runs
the handler up to its first `await`. -/
def step : Event → Page → Page
  | .click env, p =>
    if p.dom.buttonDisabled then p
    else
      { p with
        world := start p.world
        runs := p.runs ++ [{ env := env, point := .awaitCreate }] }
  | .resume i, p =>
    match p.runs[i]? with
    | none => p
    | some r =>
      match resume r.env r.point p.world with
      | (w, none) => { p with world := w, runs := p.runs.eraseIdx i }
      | (w, some k) => { p with world := w, runs := p.runs.set i { r with point := k } }
  | .commit, p => { p with dom := render p.world }
  | .timeout, p => { p with world := fireTimer p.world }

/-- The events of `es` in order. -/
def run (es : List Event) (p : Page) : Page := es.foldl (fun acc e => step e acc) p

/-- The page as first mounted and rendered. -/
def mounted : Page := { world := initial, dom := render initial, runs := [] }

/-- The committed render is the render of the current state. -/
def committed (p : Page) : Bool := decide (p.dom = render p.world)

/-- An attempt is in flight: a run of the handler is suspended, or a delayed
success is pending. -/
def attemptInFlight (p : Page) : Bool := !p.runs.isEmpty || !p.world.timers.isEmpty

/-- Every click of `es`, run from `p`, meets a committed render of the state
of its moment. -/
def clicksOnCommitted : List Event → Page → Bool
  | [], _ => true
  | .click env :: es, p => committed p && clicksOnCommitted es (step (.click env) p)
  | e :: es, p => clicksOnCommitted es (step e p)

/-- At most one attempt is in flight, and while one is, `isLoading` is true. -/
def SingleAttempt (p : Page) : Prop :=
  p.runs.length + p.world.timers.length ≤ 1
    ∧ (attemptInFlight p = true → p.world.isLoading = true)

/-- A single-face attempt up to its delayed success: a click, the commit of
the render it asks for, and the three segments of the handler. -/
def singleFaceInFlight : List Event :=
  [.click (envOf [oneFace]), .commit, .resume 0, .resume 0, .resume 0]

/-- Two clicks with no commit between them, then both runs of the handler to
their ends, taking turns. -/
def doubleClick : List Event :=
  [.click (envOf [oneFace]), .click (envOf [oneFace]),
    .resume 0, .resume 1, .resume 0, .resume 1, .resume 0, .resume 0]

/-! ## Theorems -/

/-- C1: when detector creation, capture and decoding succeed and detection
returns no face, the attempt ends with the exact no-face message, `isLoading`
false, and no timer scheduled and no navigation. -/
theorem C1_no_face (env : Env) (w : World) (model : Detector) (cam : Webcam) (src : String)
    (hc : env.createDetector = .ok model) (hr : env.webcamRef = some cam)
    (hs : cam.getScreenshot = .ok (some src)) (hne : src ≠ "")
    (hd : env.decode { src := src } = .ok ())
    (hf : model.estimateFaces { src := src } = .ok []) :
    (handleAuthenticate env w).error =
        some "No face detected. Please ensure you are clearly visible in the camera."
      ∧ (handleAuthenticate env w).isLoading = false
      ∧ (handleAuthenticate env w).timers = w.timers
      ∧ (handleAuthenticate env w).navigations = w.navigations := by
  simp [handleAuthenticate, tryBlock, getImageSrc, faceCountGate, catchBlock, errorMessage,
    setIsLoading, setError, record, hc, hr, hs, hne, hd, hf]

/-- C2: when detector creation, capture and decoding succeed and detection
returns two or more faces, the attempt ends with the exact multiple-faces
message, `isLoading` false, and no timer scheduled and no navigation. -/
theorem C2_multiple_faces (env : Env) (w : World) (model : Detector) (cam : Webcam)
    (src : String) (faces : List Face)
    (hc : env.createDetector = .ok model) (hr : env.webcamRef = some cam)
    (hs : cam.getScreenshot = .ok (some src)) (hne : src ≠ "")
    (hd : env.decode { src := src } = .ok ())
    (hf : model.estimateFaces { src := src } = .ok faces) (hlen : 2 ≤ faces.length) :
    (handleAuthenticate env w).error =
        some "Multiple faces detected. Please ensure only one person is in frame."
      ∧ (handleAuthenticate env w).isLoading = false
      ∧ (handleAuthenticate env w).timers = w.timers
      ∧ (handleAuthenticate env w).navigations = w.navigations := by
  have h0 : faces.length ≠ 0 := by omega
  have h1 : faces.length > 1 := by omega
  have h0' : faces ≠ [] := by
    intro h
    simp [h] at h0
  simp [handleAuthenticate, tryBlock, getImageSrc, faceCountGate, catchBlock, errorMessage,
    setIsLoading, setError, record, hc, hr, hs, hne, hd, hf, h0', h1]

/-- C3: when detector creation, capture and decoding succeed and detection
returns exactly one face, the attempt schedules exactly one timer, the
success action with delay 1500, sets no error and navigates nowhere yet; when
that action runs, `isLoading` is false, the error is still `null` and
`/profile/1` is the one new navigation. -/
theorem C3_single_face (env : Env) (w : World) (model : Detector) (cam : Webcam)
    (src : String) (faces : List Face)
    (hc : env.createDetector = .ok model) (hr : env.webcamRef = some cam)
    (hs : cam.getScreenshot = .ok (some src)) (hne : src ≠ "")
    (hd : env.decode { src := src } = .ok ())
    (hf : model.estimateFaces { src := src } = .ok faces) (hlen : faces.length = 1) :
    (handleAuthenticate env w).timers =
        w.timers ++ [{ callback := .authSuccess, delay := 1500 }]
      ∧ (handleAuthenticate env w).error = none
      ∧ (handleAuthenticate env w).navigations = w.navigations
      ∧ (runCallback .authSuccess (handleAuthenticate env w)).isLoading = false
      ∧ (runCallback .authSuccess (handleAuthenticate env w)).error = none
      ∧ (runCallback .authSuccess (handleAuthenticate env w)).navigations =
          w.navigations ++ ["/profile/1"] := by
  have h0' : faces ≠ [] := by
    intro h
    simp [h] at hlen
  simp [handleAuthenticate, tryBlock, getImageSrc, faceCountGate, runCallback, navigate,
    setTimeout, setIsLoading, setError, record, hc, hr, hs, hne, hd, hf, h0', hlen]

/-- C4: if an attempt schedules the success action (the timer list changes),
then detector creation succeeded, the capture produced a non-empty image,
decoding succeeded, `estimateFaces` was run on that image without fault, and
its result has length exactly 1. -/
theorem C4_gate_guards_success (env : Env) (w : World)
    (h : (handleAuthenticate env w).timers ≠ w.timers) :
    ∃ model cam src faces,
      env.createDetector = .ok model ∧ env.webcamRef = some cam
        ∧ cam.getScreenshot = .ok (some src) ∧ src ≠ ""
        ∧ env.decode { src := src } = .ok ()
        ∧ model.estimateFaces { src := src } = .ok faces
        ∧ faces.length = 1
        ∧ (handleAuthenticate env w).calls =
            w.calls ++ [.createDetector, .getScreenshot, .decode { src := src },
              .estimateFaces { src := src }] := by
  rcases hc : env.createDetector with e | model
  · simp [handleAuthenticate, tryBlock, catchBlock, setIsLoading, setError, record, hc] at h
  · rcases hr : env.webcamRef with _ | cam
    · simp [handleAuthenticate, tryBlock, getImageSrc, catchBlock, setIsLoading, setError,
        record, hc, hr] at h
    · rcases hs : cam.getScreenshot with e | _ | src
      · simp [handleAuthenticate, tryBlock, getImageSrc, catchBlock, setIsLoading, setError,
          record, hc, hr, hs] at h
      · simp [handleAuthenticate, tryBlock, getImageSrc, catchBlock, setIsLoading, setError,
          record, hc, hr, hs] at h
      · by_cases hne : src = ""
        · simp [handleAuthenticate, tryBlock, getImageSrc, catchBlock, setIsLoading, setError,
            record, hc, hr, hs, hne] at h
        · rcases hd : env.decode { src := src } with e | u
          · simp [handleAuthenticate, tryBlock, getImageSrc, catchBlock, setIsLoading,
              setError, record, hc, hr, hs, hne, hd] at h
          · rcases hf : model.estimateFaces { src := src } with e | faces
            · simp [handleAuthenticate, tryBlock, getImageSrc, catchBlock, setIsLoading,
                setError, record, hc, hr, hs, hne, hd, hf] at h
            · by_cases h0 : faces.length = 0
              · simp [handleAuthenticate, tryBlock, getImageSrc, faceCountGate, catchBlock,
                  setIsLoading, setError, record, hc, hr, hs, hne, hd, hf, h0] at h
              · by_cases h1 : faces.length > 1
                · simp [handleAuthenticate, tryBlock, getImageSrc, faceCountGate, catchBlock,
                    setIsLoading, setError, record, hc, hr, hs, hne, hd, hf, h0, h1] at h
                · have hne0 : faces ≠ [] := by
                    intro hnil
                    simp [hnil] at h0
                  refine ⟨model, cam, src, faces, rfl, rfl, hs, hne, hd, hf, by omega, ?_⟩
                  simp [handleAuthenticate, tryBlock, getImageSrc, faceCountGate, setTimeout,
                    setIsLoading, setError, record, hc, hr, hs, hne, hd, hf, hne0, h1]

/-- Witness for C4 at a single-face attempt from the initial state. -/
theorem C4_gate_guards_success_witness :
    ∃ model cam src faces,
      (envOf [oneFace]).createDetector = .ok model ∧ (envOf [oneFace]).webcamRef = some cam
        ∧ cam.getScreenshot = .ok (some src) ∧ src ≠ ""
        ∧ (envOf [oneFace]).decode { src := src } = .ok ()
        ∧ model.estimateFaces { src := src } = .ok faces
        ∧ faces.length = 1
        ∧ (handleAuthenticate (envOf [oneFace]) initial).calls =
            initial.calls ++ [.createDetector, .getScreenshot, .decode { src := src },
              .estimateFaces { src := src }] :=
  C4_gate_guards_success (envOf [oneFace]) initial (by decide)

/-- Witness for C1: no face, from the initial state. -/
theorem C1_no_face_witness :
    (handleAuthenticate (envOf []) initial).error =
        some "No face detected. Please ensure you are clearly visible in the camera."
      ∧ (handleAuthenticate (envOf []) initial).isLoading = false
      ∧ (handleAuthenticate (envOf []) initial).timers = initial.timers
      ∧ (handleAuthenticate (envOf []) initial).navigations = initial.navigations :=
  C1_no_face (envOf []) initial (detectorOf []) (camOf (some "data:image/jpeg;base64,AAAA"))
    "data:image/jpeg;base64,AAAA" rfl rfl rfl (by decide) rfl rfl

/-- Witness for C2: two faces, from the initial state. -/
theorem C2_multiple_faces_witness :
    (handleAuthenticate (envOf [oneFace, oneFace]) initial).error =
        some "Multiple faces detected. Please ensure only one person is in frame."
      ∧ (handleAuthenticate (envOf [oneFace, oneFace]) initial).isLoading = false
      ∧ (handleAuthenticate (envOf [oneFace, oneFace]) initial).timers = initial.timers
      ∧ (handleAuthenticate (envOf [oneFace, oneFace]) initial).navigations =
          initial.navigations :=
  C2_multiple_faces (envOf [oneFace, oneFace]) initial (detectorOf [oneFace, oneFace])
    (camOf (some "data:image/jpeg;base64,AAAA")) "data:image/jpeg;base64,AAAA"
    [oneFace, oneFace] rfl rfl rfl (by decide) rfl rfl (by decide)

/-- Witness for C3: one face, from the initial state. -/
theorem C3_single_face_witness :
    (handleAuthenticate (envOf [oneFace]) initial).timers =
        initial.timers ++ [{ callback := .authSuccess, delay := 1500 }]
      ∧ (handleAuthenticate (envOf [oneFace]) initial).error = none
      ∧ (handleAuthenticate (envOf [oneFace]) initial).navigations = initial.navigations
      ∧ (runCallback .authSuccess (handleAuthenticate (envOf [oneFace]) initial)).isLoading
          = false
      ∧ (runCallback .authSuccess (handleAuthenticate (envOf [oneFace]) initial)).error = none
      ∧ (runCallback .authSuccess (handleAuthenticate (envOf [oneFace]) initial)).navigations =
          initial.navigations ++ ["/profile/1"] :=
  C3_single_face (envOf [oneFace]) initial (detectorOf [oneFace])
    (camOf (some "data:image/jpeg;base64,AAAA")) "data:image/jpeg;base64,AAAA"
    [oneFace] rfl rfl rfl (by decide) rfl rfl rfl

/-- C5, as stated, fails: with detector creation succeeding and the webcam
returning `null`, the reason is the message `Failed to capture image`, not
`capture_error`; and with the capture source yielding no image but detector
creation throwing, the reason is the message of that fault. -/
theorem C5_counterexample :
    (noImage envNoShot = true
        ∧ (handleAuthenticate envNoShot initial).error = some "Failed to capture image"
        ∧ (handleAuthenticate envNoShot initial).error ≠ some "capture_error")
      ∧ (noImage (envCreateFault (.error "model load failed")) = true
        ∧ (handleAuthenticate (envCreateFault (.error "model load failed")) initial).error =
            some "model load failed") := by
  refine ⟨⟨rfl, rfl, ?_⟩, rfl, rfl⟩
  decide

/-- C5, amended: when detector creation succeeds and the capture source
yields no image, the attempt ends with error `Failed to capture image` and
`isLoading` false; the only calls made are the detector creation and, when
the ref is set, one `getScreenshot`, so nothing is decoded and no detection is
run; no timer is scheduled and nothing is navigated to. -/
theorem C5_capture_failure (env : Env) (w : World) (model : Detector)
    (hc : env.createDetector = .ok model) (hn : noImage env = true) :
    (handleAuthenticate env w).error = some "Failed to capture image"
      ∧ (handleAuthenticate env w).isLoading = false
      ∧ ((handleAuthenticate env w).calls = w.calls ++ [.createDetector]
          ∨ (handleAuthenticate env w).calls = w.calls ++ [.createDetector, .getScreenshot])
      ∧ detectCount (handleAuthenticate env w) = detectCount w
      ∧ (handleAuthenticate env w).timers = w.timers
      ∧ (handleAuthenticate env w).navigations = w.navigations := by
  rcases hr : env.webcamRef with _ | cam
  · simp [handleAuthenticate, tryBlock, getImageSrc, catchBlock, errorMessage, setIsLoading,
      setError, record, detectCount, hc, hr]
  · rcases hs : cam.getScreenshot with e | _ | src
    · simp [noImage, hr, hs] at hn
    · simp [handleAuthenticate, tryBlock, getImageSrc, catchBlock, errorMessage, setIsLoading,
        setError, record, detectCount, hc, hr, hs]
    · have hsrc : src = "" := by simpa [noImage, hr, hs] using hn
      simp [handleAuthenticate, tryBlock, getImageSrc, catchBlock, errorMessage, setIsLoading,
        setError, record, detectCount, hc, hr, hs, hsrc]

/-- Witness for C5 amended: the webcam returns `null`. -/
theorem C5_capture_failure_witness :
    (handleAuthenticate envNoShot initial).error = some "Failed to capture image"
      ∧ (handleAuthenticate envNoShot initial).isLoading = false
      ∧ ((handleAuthenticate envNoShot initial).calls = initial.calls ++ [.createDetector]
          ∨ (handleAuthenticate envNoShot initial).calls =
              initial.calls ++ [.createDetector, .getScreenshot])
      ∧ detectCount (handleAuthenticate envNoShot initial) = detectCount initial
      ∧ (handleAuthenticate envNoShot initial).timers = initial.timers
      ∧ (handleAuthenticate envNoShot initial).navigations = initial.navigations :=
  C5_capture_failure envNoShot initial (detectorOf [oneFace]) rfl rfl

/-- C6, at the failing input: when detector creation throws an `Error` whose
message is the empty string, the attempt ends with `isLoading` false and
`error` the empty string, which is falsy: no error box is shown and the page
renders exactly as in the state before any attempt. -/
theorem C6_empty_message_fault :
    (handleAuthenticate (envCreateFault (.error "")) initial).isLoading = false
      ∧ (handleAuthenticate (envCreateFault (.error "")) initial).error = some ""
      ∧ (render (handleAuthenticate (envCreateFault (.error "")) initial)).errorBox = none
      ∧ render (handleAuthenticate (envCreateFault (.error "")) initial) = render initial := by
  refine ⟨rfl, rfl, ?_, ?_⟩ <;> decide

/-- Every run of `handleAuthenticate` calls `createDetector` once, and calls
`getScreenshot` once when detector creation succeeded and the webcam ref is
set, and not at all otherwise. -/
theorem handleAuthenticate_counts (env : Env) (w : World) :
    createCount (handleAuthenticate env w) = createCount w + 1
      ∧ captureCount (handleAuthenticate env w) =
          captureCount w
            + (if env.createDetector.toBool && env.webcamRef.isSome then 1 else 0) := by
  rcases hc : env.createDetector with e | model
  · simp [handleAuthenticate, tryBlock, catchBlock, setIsLoading, setError, record,
      createCount, captureCount, Except.toBool, hc]
  · rcases hr : env.webcamRef with _ | cam
    · simp [handleAuthenticate, tryBlock, getImageSrc, catchBlock, setIsLoading, setError,
        record, createCount, captureCount, Except.toBool, hc, hr]
    · rcases hs : cam.getScreenshot with e | _ | src
      · simp [handleAuthenticate, tryBlock, getImageSrc, catchBlock, setIsLoading, setError,
          record, createCount, captureCount, Except.toBool, hc, hr, hs]
      · simp [handleAuthenticate, tryBlock, getImageSrc, catchBlock, setIsLoading, setError,
          record, createCount, captureCount, Except.toBool, hc, hr, hs]
      · by_cases hne : src = ""
        · simp [handleAuthenticate, tryBlock, getImageSrc, catchBlock, setIsLoading, setError,
            record, createCount, captureCount, Except.toBool, hc, hr, hs, hne]
        · rcases hd : env.decode { src := src } with e | u
          · simp [handleAuthenticate, tryBlock, getImageSrc, catchBlock, setIsLoading,
              setError, record, createCount, captureCount, Except.toBool, hc, hr, hs, hne, hd]
          · rcases hf : model.estimateFaces { src := src } with e | faces
            · simp [handleAuthenticate, tryBlock, getImageSrc, catchBlock, setIsLoading,
                setError, record, createCount, captureCount, Except.toBool, hc, hr, hs, hne,
                hd, hf]
            · by_cases h0 : faces = []
              · simp [handleAuthenticate, tryBlock, getImageSrc, faceCountGate, catchBlock,
                  setIsLoading, setError, record, createCount, captureCount, Except.toBool,
                  hc, hr, hs, hne, hd, hf, h0]
              · by_cases h1 : faces.length > 1
                · simp [handleAuthenticate, tryBlock, getImageSrc, faceCountGate, catchBlock,
                    setIsLoading, setError, record, createCount, captureCount, Except.toBool,
                    hc, hr, hs, hne, hd, hf, h0, h1]
                · simp [handleAuthenticate, tryBlock, getImageSrc, faceCountGate, setTimeout,
                    setIsLoading, setError, record, createCount, captureCount, Except.toBool,
                    hc, hr, hs, hne, hd, hf, h0, h1]

/-- Running a timer callback makes no collaborator call. -/
theorem runCallback_calls (cb : Callback) (w : World) : (runCallback cb w).calls = w.calls := by
  cases cb
  rfl

/-- Firing the pending timers makes no collaborator call. -/
theorem fireAll_calls (w : World) : (fireAll w).calls = w.calls := by
  have key : ∀ (ts : List Timer) (acc : World),
      (ts.foldl (fun acc t => runCallback t.callback acc) acc).calls = acc.calls := by
    intro ts
    induction ts with
    | nil => intro acc; rfl
    | cons t ts ih =>
      intro acc
      rw [List.foldl_cons, ih, runCallback_calls]
  unfold fireAll
  rw [key]

/-- The segments of the handler, run one after the other, are the handler. -/
theorem finish_start (env : Env) (w : World) : finish env (start w) = handleAuthenticate env w := by
  rcases hc : env.createDetector with e | model
  · simp [finish, start, resume, handleAuthenticate, tryBlock, hc]
  · rcases hr : env.webcamRef with _ | cam
    · simp [finish, start, resume, handleAuthenticate, tryBlock, getImageSrc, hc, hr]
    · rcases hs : cam.getScreenshot with e | _ | src
      · simp [finish, start, resume, handleAuthenticate, tryBlock, getImageSrc, hc, hr, hs]
      · simp [finish, start, resume, handleAuthenticate, tryBlock, getImageSrc, hc, hr, hs]
      · by_cases hne : src = ""
        · simp [finish, start, resume, handleAuthenticate, tryBlock, getImageSrc, hc, hr, hs,
            hne]
        · rcases hd : env.decode { src := src } with e | u
          · simp [finish, start, resume, handleAuthenticate, tryBlock, getImageSrc, hc, hr,
              hs, hne, hd]
          · rcases hf : model.estimateFaces { src := src } with e | faces
            · simp [finish, start, resume, handleAuthenticate, tryBlock, getImageSrc, hc, hr,
                hs, hne, hd, hf]
            · rcases hg : faceCountGate faces
                (record (.estimateFaces { src := src }) (record (.decode { src := src })
                  (record .getScreenshot (start w)))) with ⟨w1, _ | err⟩
              · simp [start] at hg
                simp [finish, start, resume, handleAuthenticate, tryBlock, getImageSrc, hc, hr,
                  hs, hne, hd, hf, hg]
              · simp [start] at hg
                simp [finish, start, resume, handleAuthenticate, tryBlock, getImageSrc, hc, hr,
                  hs, hne, hd, hf, hg]

/-- What one segment of the handler does to `isLoading` and the timers: it
goes on and leaves both, or ends in the `catch` block with `isLoading` false
and the timers left, or ends having scheduled one timer with `isLoading`
left. -/
theorem resume_effect (env : Env) (k : Pending) (w : World) :
    ((resume env k w).2.isSome = true ∧ (resume env k w).1.timers = w.timers
        ∧ (resume env k w).1.isLoading = w.isLoading)
      ∨ ((resume env k w).2 = none ∧ (resume env k w).1.timers = w.timers
        ∧ (resume env k w).1.isLoading = false)
      ∨ ((resume env k w).2 = none
        ∧ (resume env k w).1.timers = w.timers ++ [{ callback := .authSuccess, delay := 1500 }]
        ∧ (resume env k w).1.isLoading = w.isLoading) := by
  cases k with
  | awaitCreate =>
    rcases hc : env.createDetector with e | model
    · simp [resume, catchBlock, setIsLoading, setError, hc]
    · rcases hr : env.webcamRef with _ | cam
      · simp [resume, getImageSrc, catchBlock, setIsLoading, setError, hc, hr]
      · rcases hs : cam.getScreenshot with e | _ | src
        · simp [resume, getImageSrc, catchBlock, setIsLoading, setError, record, hc, hr, hs]
        · simp [resume, getImageSrc, catchBlock, setIsLoading, setError, record, hc, hr, hs]
        · by_cases hne : src = ""
          · simp [resume, getImageSrc, catchBlock, setIsLoading, setError, record, hc, hr, hs,
              hne]
          · simp [resume, getImageSrc, record, hc, hr, hs, hne]
  | awaitDecode model img =>
    rcases hd : env.decode img with e | u
    · simp [resume, catchBlock, setIsLoading, setError, hd]
    · simp [resume, record, hd]
  | awaitEstimate model img =>
    rcases hf : model.estimateFaces img with e | faces
    · simp [resume, catchBlock, setIsLoading, setError, hf]
    · by_cases h0 : faces = []
      · simp [resume, faceCountGate, catchBlock, setIsLoading, setError, hf, h0]
      · by_cases h1 : faces.length > 1
        · simp [resume, faceCountGate, catchBlock, setIsLoading, setError, hf, h0, h1]
        · simp [resume, faceCountGate, setTimeout, hf, h0, h1]

/-- Every event keeps `SingleAttempt`, a click provided it meets a committed
render. -/
theorem step_singleAttempt (e : Event) (p : Page) (h : SingleAttempt p)
    (hc : clicksOnCommitted [e] p = true) : SingleAttempt (step e p) := by
  obtain ⟨hlen, hload⟩ := h
  cases e with
  | click env =>
    have hcm : p.dom = render p.world := by
      simpa [clicksOnCommitted, committed] using hc
    by_cases hd : p.dom.buttonDisabled = true
    · simpa [step, hd] using And.intro hlen hload
    · have hl : p.world.isLoading = false := by
        rw [hcm] at hd
        simpa [render] using hd
      have hnf : attemptInFlight p = false := by
        cases hf : attemptInFlight p with
        | false => rfl
        | true => rw [hload hf] at hl; cases hl
      have hr : p.runs = [] := by
        simpa [attemptInFlight] using (Bool.or_eq_false_iff.mp hnf).1
      have ht : p.world.timers = [] := by
        simpa [attemptInFlight] using (Bool.or_eq_false_iff.mp hnf).2
      simp [step, hd, SingleAttempt, start, setIsLoading, setError, record, hr, ht]
  | resume i =>
    rcases hri : p.runs[i]? with _ | r
    · simpa [step, hri] using And.intro hlen hload
    · rcases hruns : p.runs with _ | ⟨r0, rs⟩
      · simp [hruns] at hri
      · have hrs : rs = [] := by
          rw [hruns] at hlen
          simp at hlen
          apply List.eq_nil_of_length_eq_zero
          omega
        have ht : p.world.timers = [] := by
          rw [hruns] at hlen
          simp at hlen
          apply List.eq_nil_of_length_eq_zero
          omega
        have hl : p.world.isLoading = true := hload (by simp [attemptInFlight, hruns])
        subst hrs
        have hi : i = 0 := by
          rcases i with _ | j
          · rfl
          · simp [hruns] at hri
        subst hi
        have hr0 : r0 = r := by simpa [hruns] using hri
        subst hr0
        rcases resume_effect r0.env r0.point p.world with hk | hk | hk
        · obtain ⟨hs, htm, hil⟩ := hk
          rcases hres : resume r0.env r0.point p.world with ⟨w1, _ | k⟩
          · simp [hres] at hs
          · rw [hres] at htm hil
            simp at htm hil
            simp [step, hruns, hres, SingleAttempt, attemptInFlight, htm, ht, hil, hl]
        · obtain ⟨hs, htm, hil⟩ := hk
          rcases hres : resume r0.env r0.point p.world with ⟨w1, _ | k⟩
          · rw [hres] at htm hil
            simp at htm hil
            simp [step, hruns, hres, SingleAttempt, attemptInFlight, htm, ht]
          · simp [hres] at hs
        · obtain ⟨hs, htm, hil⟩ := hk
          rcases hres : resume r0.env r0.point p.world with ⟨w1, _ | k⟩
          · rw [hres] at htm hil
            simp at htm hil
            simp [step, hruns, hres, SingleAttempt, attemptInFlight, htm, ht, hil, hl]
          · simp [hres] at hs
  | commit =>
    simpa [step, SingleAttempt, attemptInFlight] using And.intro hlen hload
  | timeout =>
    rcases htm : p.world.timers with _ | ⟨t, ts⟩
    · have hw : fireTimer p.world = p.world := by simp [fireTimer, htm]
      simpa [step, hw] using And.intro hlen hload
    · have hr : p.runs = [] := by
        rw [htm] at hlen
        simp at hlen
        apply List.eq_nil_of_length_eq_zero
        omega
      have hts : ts = [] := by
        rw [htm] at hlen
        simp at hlen
        apply List.eq_nil_of_length_eq_zero
        omega
      subst hts
      cases hcb : t.callback
      simp [step, SingleAttempt, attemptInFlight, fireTimer, runCallback, navigate,
        setIsLoading, htm, hr, hcb]

/-- A sequence of events whose clicks all meet a committed render keeps
`SingleAttempt`. -/
theorem run_singleAttempt (es : List Event) (p : Page) (h : SingleAttempt p)
    (hc : clicksOnCommitted es p = true) : SingleAttempt (run es p) := by
  induction es generalizing p with
  | nil => simpa [run] using h
  | cons e es ih =>
    have h1 : clicksOnCommitted [e] p = true ∧ clicksOnCommitted es (step e p) = true := by
      cases e <;> simp_all [clicksOnCommitted]
    have := ih (step e p) (step_singleAttempt e p h h1.1) h1.2
    simpa [run] using this

/-- C7, as stated, fails: after a first click the attempt is in flight and
`isLoading` is true, but until React commits the render the button is still
enabled, and a second click runs `handleAuthenticate` again: two detector
creations, two suspended runs, and in the end two captures, two detections
and two scheduled timers. -/
theorem C7_counterexample :
    (run [.click (envOf [oneFace])] mounted).world.isLoading = true
      ∧ attemptInFlight (run [.click (envOf [oneFace])] mounted) = true
      ∧ createCount (run [.click (envOf [oneFace])] mounted).world = 1
      ∧ createCount (run [.click (envOf [oneFace]), .click (envOf [oneFace])] mounted).world = 2
      ∧ (run [.click (envOf [oneFace]), .click (envOf [oneFace])] mounted).runs.length = 2
      ∧ captureCount (run doubleClick mounted).world = 2
      ∧ detectCount (run doubleClick mounted).world = 2
      ∧ (run doubleClick mounted).world.timers.length = 2 := by
  decide

/-- C7, amended: on a page where every click so far met a committed render,
at most one attempt is in flight; while one is in flight (a run of the
handler is suspended at an `await`, or its delayed success is pending)
`isLoading` is true, so once React has committed the render of the current
state the button is disabled and a click leaves the whole page unchanged: no
run of the handler starts and nothing is added to the call log. -/
theorem C7_click_in_flight_after_commit (es : List Event) (env : Env)
    (hc : clicksOnCommitted es mounted = true)
    (hd : committed (run es mounted) = true)
    (hf : attemptInFlight (run es mounted) = true) :
    (run es mounted).world.isLoading = true
      ∧ (run es mounted).dom.buttonDisabled = true
      ∧ step (.click env) (run es mounted) = run es mounted
      ∧ (run es mounted).runs.length + (run es mounted).world.timers.length ≤ 1 := by
  have hm : SingleAttempt mounted := by
    constructor
    · decide
    · intro h
      exact absurd h (by decide)
  obtain ⟨hlen, hload⟩ := run_singleAttempt es mounted hm hc
  have hl := hload hf
  have hdom : (run es mounted).dom = render (run es mounted).world := by
    simpa [committed] using hd
  have hdis : (run es mounted).dom.buttonDisabled = true := by
    rw [hdom]
    simpa [render] using hl
  exact ⟨hl, hdis, by simp [step, hdis], hlen⟩

/-- Witness for C7 amended: a click between a single-face detection and the
delayed success, after the commit. -/
theorem C7_click_in_flight_after_commit_witness :
    (run singleFaceInFlight mounted).world.isLoading = true
      ∧ (run singleFaceInFlight mounted).dom.buttonDisabled = true
      ∧ step (.click (envOf [])) (run singleFaceInFlight mounted) =
          run singleFaceInFlight mounted
      ∧ (run singleFaceInFlight mounted).runs.length
          + (run singleFaceInFlight mounted).world.timers.length ≤ 1 :=
  C7_click_in_flight_after_commit singleFaceInFlight (envOf []) (by decide) (by decide)
    (by decide)

/-- C8, as stated, fails: three sequential attempts from the initial state
call `createDetector` three times, not at most once. -/
theorem C8_counterexample :
    createCount (runAttempts [envOf [], envOf [oneFace], envOf []] initial) = 3
      ∧ ¬ createCount (runAttempts [envOf [], envOf [oneFace], envOf []] initial) ≤ 1 := by
  decide

/-- C8, amended: every attempt calls `faceDetection.createDetector` exactly
once, so N sequential attempts call it exactly N times in total, whatever
the collaborators do. -/
theorem C8_create_once_per_attempt (envs : List Env) (w : World) :
    createCount (runAttempts envs w) = createCount w + envs.length := by
  unfold runAttempts
  induction envs generalizing w with
  | nil => rfl
  | cons env envs ih =>
    rw [List.foldl_cons, ih]
    have h1 : createCount (fireAll (handleAuthenticate env w)) =
        createCount (handleAuthenticate env w) := by
      unfold createCount
      rw [fireAll_calls]
    rw [h1, (handleAuthenticate_counts env w).1, List.length_cons]
    omega

/-- C9, as stated, fails: when detector creation throws, the capture source
is never asked for an image; with the ref unset it is not asked either. -/
theorem C9_counterexample :
    captureCount (handleAuthenticate (envCreateFault .nonError) initial) = 0
      ∧ captureCount (handleAuthenticate
          { createDetector := .error .nonError, webcamRef := some (camOf (some "data:,x")),
            decode := fun _ => .ok () } initial) = 0
      ∧ captureCount (handleAuthenticate
          { createDetector := .ok (detectorOf [oneFace]), webcamRef := none,
            decode := fun _ => .ok () } initial) = 0 := by
  decide

/-- C9, amended: an attempt calls `getScreenshot` at most once: exactly once
when detector creation succeeds and the webcam ref is set, and not at all
when detector creation throws or the ref is unset. -/
theorem C9_capture_at_most_once (env : Env) (w : World) :
    captureCount (handleAuthenticate env w) ≤ captureCount w + 1
      ∧ captureCount (handleAuthenticate env w) =
          captureCount w
            + (if env.createDetector.toBool && env.webcamRef.isSome then 1 else 0) := by
  have h := (handleAuthenticate_counts env w).2
  refine ⟨?_, h⟩
  rw [h]
  split <;> omega

/-- C10: whether an attempt fails, the value it throws, and the `isLoading`
and `error` it leaves do not depend on the prior state. A failing attempt
leaves `isLoading` false and `error` equal to the message of its own thrown
value, schedules no timer and navigates nowhere. A successful attempt leaves
`error` null and schedules the one success action; once that action has run,
`isLoading` is false, `error` is still null and `/profile/1` is the one new
navigation. -/
theorem C10_outcome_independent_of_prior_state (env : Env) (w : World) :
    (∀ w0 : World, (tryBlock env w0).2 = (tryBlock env w).2
        ∧ (handleAuthenticate env w0).isLoading = (handleAuthenticate env w).isLoading
        ∧ (handleAuthenticate env w0).error = (handleAuthenticate env w).error)
      ∧ (∀ err, (tryBlock env w).2 = some err →
          (handleAuthenticate env w).isLoading = false
            ∧ (handleAuthenticate env w).error = some (errorMessage err)
            ∧ (handleAuthenticate env w).timers = w.timers
            ∧ (handleAuthenticate env w).navigations = w.navigations)
      ∧ ((tryBlock env w).2 = none →
          (handleAuthenticate env w).error = none
            ∧ (handleAuthenticate env w).timers =
                w.timers ++ [{ callback := .authSuccess, delay := 1500 }]
            ∧ (handleAuthenticate env w).navigations = w.navigations
            ∧ (runCallback .authSuccess (handleAuthenticate env w)).isLoading = false
            ∧ (runCallback .authSuccess (handleAuthenticate env w)).error = none
            ∧ (runCallback .authSuccess (handleAuthenticate env w)).navigations =
                w.navigations ++ ["/profile/1"]) := by
  rcases hc : env.createDetector with e | model
  · simp [handleAuthenticate, tryBlock, catchBlock, setIsLoading, setError, record, hc]
  · rcases hr : env.webcamRef with _ | cam
    · simp [handleAuthenticate, tryBlock, getImageSrc, catchBlock, setIsLoading, setError,
        record, hc, hr]
    · rcases hs : cam.getScreenshot with e | _ | src
      · simp [handleAuthenticate, tryBlock, getImageSrc, catchBlock, setIsLoading, setError,
          record, hc, hr, hs]
      · simp [handleAuthenticate, tryBlock, getImageSrc, catchBlock, setIsLoading, setError,
          record, hc, hr, hs]
      · by_cases hne : src = ""
        · simp [handleAuthenticate, tryBlock, getImageSrc, catchBlock, setIsLoading, setError,
            record, hc, hr, hs, hne]
        · rcases hd : env.decode { src := src } with e | u
          · simp [handleAuthenticate, tryBlock, getImageSrc, catchBlock, setIsLoading,
              setError, record, hc, hr, hs, hne, hd]
          · rcases hf : model.estimateFaces { src := src } with e | faces
            · simp [handleAuthenticate, tryBlock, getImageSrc, catchBlock, setIsLoading,
                setError, record, hc, hr, hs, hne, hd, hf]
            · by_cases h0 : faces = []
              · simp [handleAuthenticate, tryBlock, getImageSrc, faceCountGate, catchBlock,
                  setIsLoading, setError, record, hc, hr, hs, hne, hd, hf, h0]
              · by_cases h1 : faces.length > 1
                · simp [handleAuthenticate, tryBlock, getImageSrc, faceCountGate, catchBlock,
                    setIsLoading, setError, record, hc, hr, hs, hne, hd, hf, h0, h1]
                · simp [handleAuthenticate, tryBlock, getImageSrc, faceCountGate, setTimeout,
                    runCallback, navigate, setIsLoading, setError, record, hc, hr, hs, hne,
                    hd, hf, h0, h1]

/-- Witness for C10: from a state holding a stale error, a failing attempt
(no face) and a successful one (one face). -/
theorem C10_outcome_independent_of_prior_state_witness :
    ((handleAuthenticate (envOf []) (setError (some "stale") initial)).isLoading = false
        ∧ (handleAuthenticate (envOf []) (setError (some "stale") initial)).error =
            some "No face detected. Please ensure you are clearly visible in the camera.")
      ∧ ((runCallback .authSuccess
            (handleAuthenticate (envOf [oneFace]) (setError (some "stale") initial))).isLoading
            = false
        ∧ (runCallback .authSuccess
            (handleAuthenticate (envOf [oneFace]) (setError (some "stale") initial))).error
            = none) := by
  have hfail := (C10_outcome_independent_of_prior_state (envOf [])
    (setError (some "stale") initial)).2.1
    (.error "No face detected. Please ensure you are clearly visible in the camera.") rfl
  have hok := (C10_outcome_independent_of_prior_state (envOf [oneFace])
    (setError (some "stale") initial)).2.2 rfl
  exact ⟨⟨hfail.1, hfail.2.1⟩, hok.2.2.2.1, hok.2.2.2.2.1⟩

end AuthenticationPage
